import Mathlib

/-
Verification of the Confluence connector pagination / retry layer
(backend/onyx/connectors/confluence/onyx_confluence.py).

The Python source is shallowly embedded below:
- `handle_http_error` embeds `_handle_http_error` (backoff classifier);
- `wrapped_call_loop` / `wrapped_call` embed the loop inside
  `handle_confluence_rate_limit` (method retry wrapper), with monotonic
  time modelled as an integer number of seconds threaded through the loop;
- `paginate_error_recovery`, `next_cursor_update`, `paginate_url_loop` and
  `paginate_url` embed `OnyxConfluence._paginate_url`;
- `traverse_and_update` embeds `_traverse_and_update` inside
  `cql_paginate_all_expansions` (nested-expansion resolver);
- `validate_connector_configuration` / `build_confluence_client` embed the
  module-level validation and construction functions.
-/

/-- Embeds the data of `e.response` that `_handle_http_error` reads:
the HTTP status code, the body text, and the `Retry-After` header
(`e.response.headers.get("Retry-After")`). -/
structure HTTPResponse where
  status_code : Nat
  text : String
  retry_after_header : Option String
deriving DecidableEq

/-- Embeds a raised `requests.HTTPError`.  `response = none` models the
malformed case where `e.response is None` (or its headers are `None`),
which `_handle_http_error` re-raises. -/
structure HTTPErrorE where
  response : Option HTTPResponse
deriving DecidableEq

/-- ASCII lowercase of one character, as Python `str.lower()` acts on the
ASCII strings involved here. -/
def charLower (c : Char) : Char :=
  if 65 ≤ c.toNat ∧ c.toNat ≤ 90 then Char.ofNat (c.toNat + 32) else c

/-- Embeds Python `s.lower()`. -/
def pyLower (s : String) : String :=
  String.mk (s.toList.map charLower)

/-- `RATE_LIMIT_MESSAGE_LOWERCASE = "Rate limit exceeded".lower()`. -/
def RATE_LIMIT_MESSAGE_LOWERCASE : String := pyLower "Rate limit exceeded"

/-- Whether `needle` occurs as a contiguous sub-list of `hay`. -/
def containsSubList (needle : List Char) : List Char → Bool
  | [] => needle.isEmpty
  | c :: rest => needle.isPrefixOf (c :: rest) || containsSubList needle rest

/-- Python substring containment `needle in hay`. -/
def containsSubstring (needle hay : String) : Bool :=
  containsSubList needle.toList hay.toList

/-- One decimal digit, as used by the integer parse below. -/
def digitVal (c : Char) : Option Nat :=
  if c.isDigit then some (c.toNat - 48) else none

/-- Parses a nonempty all-digit character list as a natural number. -/
def parseNatDigits (cs : List Char) : Option Nat :=
  if cs.isEmpty then none
  else cs.foldl (fun acc c => acc.bind (fun n => (digitVal c).map (fun d => 10 * n + d)))
    (some 0)

/-- Embeds Python `int(s)` on header strings: an optional sign followed by
decimal digits; anything else raises `ValueError`, modelled as `none`. -/
def pyInt (s : String) : Option Int :=
  match s.toList with
  | '-' :: rest => (parseNatDigits rest).map (fun n => -(n : Int))
  | '+' :: rest => (parseNatDigits rest).map (fun n => (n : Int))
  | cs => (parseNatDigits cs).map (fun n => (n : Int))

/-- Embeds `_handle_http_error(e, attempt)`.  Returns `.error e` where the
source re-raises the error, and `.ok delay` where the source computes a
delay in seconds.  (The source returns
`math.ceil(time.monotonic() + delay)`; with monotonic time modelled as an
integer, the resume time is `now + delay`, which the retry wrapper below
computes itself.)  Pythons `int(header)` is modelled as `pyInt`;
a failed parse is the `ValueError: pass` branch. -/
def handle_http_error (e : HTTPErrorE) (attempt : Nat) : Except HTTPErrorE Int :=
  let MIN_DELAY : Int := 2
  let MAX_DELAY : Int := 60
  let STARTING_DELAY : Int := 5
  let BACKOFF : Int := 2
  match e.response with
  | none => .error e
  | some resp =>
    if resp.status_code ≠ 429 ∧
        ¬ (containsSubstring RATE_LIMIT_MESSAGE_LOWERCASE (pyLower resp.text) = true) then
      .error e
    else
      let retry_after : Option Int :=
        match resp.retry_after_header with
        | none => none
        | some h =>
          match pyInt h with
          | none => none
          | some v =>
            let v1 := if v > MAX_DELAY then MAX_DELAY else v
            let v2 := if v1 < MIN_DELAY then MIN_DELAY else v1
            some v2
      match retry_after with
      | some d => .ok d
      | none => .ok (min (STARTING_DELAY * BACKOFF ^ attempt) MAX_DELAY)

/-- Rate-limit classification used by `_handle_http_error`: the error is
handled (rather than re-raised) exactly when the status is 429 or the
lowercased body contains the rate-limit phrase. -/
def rateLimitClassified (resp : HTTPResponse) : Prop :=
  resp.status_code = 429 ∨
    containsSubstring RATE_LIMIT_MESSAGE_LOWERCASE (pyLower resp.text) = true

instance (resp : HTTPResponse) : Decidable (rateLimitClassified resp) := by
  unfold rateLimitClassified; infer_instance

/-- C2: for every rate-limit-classified HTTP failure whose Retry-After
header is present and parses as an integer X, the backoff delay equals
clamp(X, 2, 60): values below 2 are raised to 2, values above 60 are
lowered to 60, and otherwise X is used verbatim. -/
theorem c2_retry_after_clamped (resp : HTTPResponse) (attempt : Nat) (X : Int)
    (hclass : rateLimitClassified resp)
    (hheader : ∃ h, resp.retry_after_header = some h ∧ pyInt h = some X) :
    handle_http_error ⟨some resp⟩ attempt = .ok (max 2 (min 60 X)) := by
  obtain ⟨h, hh, hparse⟩ := hheader
  unfold handle_http_error
  simp only
  rw [if_neg]
  · simp only [hh, hparse]
    split
    · next hgt =>
      rw [if_neg (by omega)]
      congr 1
      omega
    · next hle =>
      split
      · next hlt =>
        congr 1
        omega
      · next hge =>
        congr 1
        omega
  · rcases hclass with hc | hc
    · simp [hc]
    · simp [hc]

/-- Witness for C2 at a concrete input: status 429, Retry-After "70",
clamped down to 60. -/
theorem c2_retry_after_clamped_witness :
    handle_http_error ⟨some ⟨429, "", some "70"⟩⟩ 0 = .ok (max 2 (min 60 70)) :=
  c2_retry_after_clamped ⟨429, "", some "70"⟩ 0 70 (by decide) ⟨"70", rfl, by decide⟩

/-- C3: for every rate-limit-classified HTTP failure with no Retry-After
header, or one that does not parse as an integer, at 0-based attempt
index n the backoff delay equals min(5 * 2 ^ n, 60). -/
theorem c3_exponential_backoff (resp : HTTPResponse) (n : Nat)
    (hclass : rateLimitClassified resp)
    (hheader : resp.retry_after_header = none ∨
      ∃ h, resp.retry_after_header = some h ∧ pyInt h = none) :
    handle_http_error ⟨some resp⟩ n = .ok (min (5 * 2 ^ n) 60) := by
  unfold handle_http_error
  simp only
  rw [if_neg]
  · rcases hheader with hh | ⟨h, hh, hparse⟩
    · simp [hh]
    · simp [hh, hparse]
  · rcases hclass with hc | hc
    · simp [hc]
    · simp [hc]

/-- Witness for C3 at a concrete input: body carries the rate-limit
phrase, Retry-After header "soon" fails integer parsing, attempt 2
gives min(5 * 4, 60) = 20. -/
theorem c3_exponential_backoff_witness :
    handle_http_error ⟨some ⟨503, "rate limit exceeded", some "soon"⟩⟩ 2 =
      .ok (min (5 * 2 ^ 2) 60) :=
  c3_exponential_backoff ⟨503, "rate limit exceeded", some "soon"⟩ 2
    (by decide) (.inr ⟨"soon", rfl, by decide⟩)

/-- Outcome of one invocation of the wrapped `confluence_call`. -/
inductive CallOutcome (α : Type) where
  | success (v : α)
  | httpError (e : HTTPErrorE)
  | attributeError
  | otherError
deriving DecidableEq

/-- Environment for the retry wrapper: `outcome n` is what the n-th
invocation of `confluence_call` does, and `duration n` is how many
seconds that invocation takes before returning or raising. -/
structure CallEnv (α : Type) where
  outcome : Nat → CallOutcome α
  duration : Nat → Nat

/-- Result of `wrapped_call`: Python falls off the `for` loop and
returns `None`, modelled as `.returned none`. -/
inductive WrapResult (α : Type) where
  | returned (v : Option α)
  | timeoutError
  | raisedHttp (e : HTTPErrorE)
  | raisedAttributeError
  | raisedOther
deriving DecidableEq

/-- Embeds the `for attempt in range(MAX_RETRIES)` loop inside
`handle_confluence_rate_limit`.  `remaining` is how many of the 5
attempts are left, `attempt` the current 0-based index, `now` the
monotonic clock in seconds.  The second component counts how many times
`confluence_call` is actually invoked.  The sleep loop
`while time.monotonic() < delay_until: time.sleep(1)` ends at the first
whole second at or past `delay_until`, so time advances to
`max failAt delay_until`. -/
def wrapped_call_loop {α : Type} (env : CallEnv α) (timeout_at : Int) :
    Nat → Nat → Int → WrapResult α × Nat
  | _, 0, _ => (.returned none, 0)
  | attempt, r + 1, now =>
    if now > timeout_at then (.timeoutError, 0)
    else
      match env.outcome attempt with
      | .success v => (.returned (some v), 1)
      | .httpError e =>
        match handle_http_error e attempt with
        | .error e => (.raisedHttp e, 1)
        | .ok delay =>
          let failAt := now + env.duration attempt
          let delay_until := failAt + delay
          let t := wrapped_call_loop env timeout_at (attempt + 1) r (max failAt delay_until)
          (t.1, t.2 + 1)
      | .attributeError =>
        if attempt = 5 - 1 then (.raisedAttributeError, 1)
        else
          let t := wrapped_call_loop env timeout_at (attempt + 1) r
            (now + env.duration attempt + 5)
          (t.1, t.2 + 1)
      | .otherError => (.raisedOther, 1)

/-- Embeds `wrapped_call` inside `handle_confluence_rate_limit`:
`MAX_RETRIES = 5`, `timeout_at = time.monotonic() + 600` where `t0` is
the monotonic time at invocation. -/
def wrapped_call {α : Type} (env : CallEnv α) (t0 : Int) : WrapResult α × Nat :=
  wrapped_call_loop env (t0 + 600) 0 5 t0

/-- The attempt count component of `wrapped_call_loop` is bounded by the
remaining attempt budget. -/
theorem wrapped_call_loop_count_le {α : Type} (env : CallEnv α) (timeout_at : Int) :
    ∀ r attempt now, (wrapped_call_loop env timeout_at attempt r now).2 ≤ r := by
  intro r
  induction r with
  | zero => intro attempt now; simp [wrapped_call_loop]
  | succ r ih =>
    intro attempt now
    unfold wrapped_call_loop
    split
    · simp
    · split
      · simp
      · split
        · simp
        · exact Nat.add_le_add_right (ih _ _) 1
      · split
        · simp
        · exact Nat.add_le_add_right (ih _ _) 1
      · simp

/-- C4: the method retry wrapper makes at most 5 attempts of the wrapped
call, and whenever a new attempt would start (any number of attempts
remaining) with more than 600 seconds elapsed since the first
invocation, the result is the distinct TimeoutError (no further call is
made), not a rate-limit error. -/
theorem c4_retry_budget {α : Type} :
    (∀ (env : CallEnv α) (t0 : Int), (wrapped_call env t0).2 ≤ 5) ∧
    (∀ (env : CallEnv α) (t0 : Int) (attempt r : Nat) (now : Int),
      now - t0 > 600 →
      wrapped_call_loop env (t0 + 600) attempt (r + 1) now = (.timeoutError, 0)) := by
  constructor
  · intro env t0
    exact wrapped_call_loop_count_le env (t0 + 600) 5 0 t0
  · intro env t0 attempt r now hnow
    unfold wrapped_call_loop
    rw [if_pos (by omega)]

/-- Witness for C4 at concrete inputs: a call environment that always
fails with a non-retryable error, started at time 0; and the loop
entered at time 601 with 3 attempts remaining times out. -/
theorem c4_retry_budget_witness :
    (wrapped_call ⟨fun _ => CallOutcome.otherError (α := Nat), fun _ => 0⟩ 0).2 ≤ 5 ∧
    wrapped_call_loop ⟨fun _ => CallOutcome.otherError (α := Nat), fun _ => 0⟩
      (0 + 600) 0 3 601 = (.timeoutError, 0) :=
  ⟨c4_retry_budget.1 ⟨fun _ => CallOutcome.otherError, fun _ => 0⟩ 0,
   c4_retry_budget.2 ⟨fun _ => CallOutcome.otherError, fun _ => 0⟩ 0 0 2 601 (by omega)⟩

/-- Any delay the backoff classifier accepts lies in [2, 60]: the
Retry-After branch clamps into that interval and the exponential branch
is min(5 * 2 ^ n, 60). -/
theorem handle_http_error_ok_bounds (e : HTTPErrorE) (n : Nat) (d : Int)
    (h : handle_http_error e n = .ok d) : 2 ≤ d ∧ d ≤ 60 := by
  have hpow : (0 : Int) < 2 ^ n := pow_pos (by norm_num) n
  obtain ⟨r⟩ := e
  cases r with
  | none => simp [handle_http_error] at h
  | some resp =>
    unfold handle_http_error at h
    simp only at h
    split at h
    · simp at h
    · cases hh : resp.retry_after_header with
      | none =>
        rw [hh] at h
        simp only [Except.ok.injEq] at h
        constructor
        · rw [← h]; refine le_min (by omega) (by omega)
        · rw [← h]; exact min_le_right _ _
      | some s =>
        rw [hh] at h
        simp only at h
        cases hp : pyInt s with
        | none =>
          rw [hp] at h
          simp only [Except.ok.injEq] at h
          constructor
          · rw [← h]; refine le_min (by omega) (by omega)
          · rw [← h]; exact min_le_right _ _
        | some v =>
          rw [hp] at h
          simp only [Except.ok.injEq] at h
          split at h <;> split at h <;> omega

/-- If every remaining attempt fails with a rate-limit-classified HTTP
error, the call durations are zero, and the clock has enough slack, the
retry loop consumes all remaining attempts and returns `None`. -/
theorem wrapped_call_loop_all_rate_limited {α : Type} (env : CallEnv α)
    (hdur : ∀ n, env.duration n = 0) (timeout_at : Int) :
    ∀ (r attempt : Nat) (now : Int),
      (∀ k, k < r → ∃ e d, env.outcome (attempt + k) = .httpError e ∧
        handle_http_error e (attempt + k) = .ok d) →
      now + 60 * (r : Int) ≤ timeout_at + 60 →
      wrapped_call_loop env timeout_at attempt r now = (.returned none, r) := by
  intro r
  induction r with
  | zero => intro attempt now _ _; rfl
  | succ r ih =>
    intro attempt now houts htime
    obtain ⟨e, d, hout, hok⟩ := houts 0 (Nat.succ_pos r)
    rw [Nat.add_zero] at hout hok
    obtain ⟨hd2, hd60⟩ := handle_http_error_ok_bounds e attempt d hok
    unfold wrapped_call_loop
    rw [if_neg (by push_cast at htime ⊢; omega), hout]
    simp only [hok, hdur attempt]
    have hrec := ih (attempt + 1)
      (max (now + (0 : Nat)) (now + (0 : Nat) + d))
      (fun k hk => by
        have := houts (k + 1) (by omega)
        rwa [show attempt + (k + 1) = attempt + 1 + k by omega] at this)
      (by
        have : max (now + ((0 : Nat) : Int)) (now + ((0 : Nat) : Int) + d) = now + d := by
          push_cast
          omega
        rw [this]
        push_cast at htime ⊢
        omega)
    rw [hrec]

/-- C10: if every one of the 5 allowed attempts fails with a
rate-limit-classified HTTP error (one the backoff classifier accepts),
the wrapped call falls off the retry loop after the final backoff sleep
and returns `None` — the last rate-limit failure is not propagated.
Call durations are taken as zero so the 600-second budget is not hit. -/
theorem c10_exhausted_rate_limit_returns_none {α : Type} (env : CallEnv α) (t0 : Int)
    (houts : ∀ k, k < 5 → ∃ e d, env.outcome k = .httpError e ∧
      handle_http_error e k = .ok d)
    (hdur : ∀ n, env.duration n = 0) :
    wrapped_call env t0 = (.returned none, 5) := by
  unfold wrapped_call
  exact wrapped_call_loop_all_rate_limited env hdur (t0 + 600) 5 0 t0
    (fun k hk => by simpa using houts k hk)
    (by omega)

/-- Witness for C10 at a concrete input: every attempt raises an HTTP
429 with no Retry-After header; the wrapped call returns `None`. -/
theorem c10_exhausted_rate_limit_returns_none_witness :
    wrapped_call ⟨fun _ => CallOutcome.httpError (α := Nat) ⟨some ⟨429, "", none⟩⟩,
      fun _ => 0⟩ 0 = (.returned none, 5) :=
  c10_exhausted_rate_limit_returns_none _ 0
    (fun k _ => ⟨⟨some ⟨429, "", none⟩⟩, min (5 * 2 ^ k) 60, rfl, rfl⟩)
    (fun _ => rfl)

/-- The per-request URL fragment (`url_suffix`) of `_paginate_url`,
with the query parameters the loop reads and rewrites held as fields:
the `start` offset, the `limit` parameter, and whether the URL contains
the problematic expansion string `body.storage.value`
(`_PROBLEMATIC_EXPANSIONS`).  `base` is the rest of the URL. -/
structure UrlSuffix where
  base : String
  startP : Option Int
  limitP : Option Nat
  problematicExpansion : Bool
deriving DecidableEq

/-- Modelled from the spec: `get_start_param_from_url` lives in
`onyx/connectors/confluence/utils.py`, which is not part of the given
sources.  Per the spec, a cursor is a URL fragment carrying a `start`
offset; end-to-end scenario 3 starts at `start=0`, so a URL without an
explicit `start` parameter denotes offset 0. -/
def get_start_param_from_url (u : UrlSuffix) : Int :=
  u.startP.getD 0

/-- Modelled from the spec: `update_param_in_path` lives in
`onyx/connectors/confluence/utils.py`, which is not part of the given
sources.  `_paginate_url` only ever uses it with param `"start"`, so it
is embedded as rewriting the `start` parameter of the URL to the given
value. -/
def update_param_in_path (u : UrlSuffix) (value : Int) : UrlSuffix :=
  { u with startP := some value }

/-- What the HTTP transport returns for one pagination GET:
the status code, whether `.json()` succeeds, the `results` list
(records abstracted as integers), and `_links.next` (`none` models a
missing or empty next link, which is falsy in the source). -/
structure ServerResponse where
  status_code : Nat
  json_ok : Bool
  results : List Nat
  next_link : Option UrlSuffix
deriving DecidableEq

/-- Embeds the error-recovery branches of `_paginate_url` (the body of
the `except` around `raise_for_status`, reached when the status is an
HTTP error): first the problematic-expansion substitution, then the
halving of the limit on a 500 when the limit exceeds
`_MINIMUM_PAGINATION_LIMIT = 50`.  `some (u, l)` means "rewrite and
retry the same iteration with URL `u` and limit `l`"; `none` means the
error propagates as fatal. -/
def paginate_error_recovery (url : UrlSuffix) (status : Nat) (limit : Nat) :
    Option (UrlSuffix × Nat) :=
  if url.problematicExpansion then
    some ({ url with problematicExpansion := false }, limit)
  else if status = 500 ∧ limit > 50 then
    some ({ url with limitP := some (limit / 2) }, limit / 2)
  else
    none

/-- Embeds lines 244-275 of `onyx_confluence.py`: after yielding a page
of `numResults` records fetched through `old` (i.e. `old_url_suffix`),
compute the `url_suffix` for the next iteration from the
server-provided `_links.next` (cursor correction when its `start`
advances by more than the number of results), then cursor synthesis
when `auto_paginate` is set and at least one result was returned. -/
def next_cursor_update (old : UrlSuffix) (numResults : Nat)
    (serverNext : Option UrlSuffix) (auto_paginate : Bool) : Option UrlSuffix :=
  let corrected : Option UrlSuffix :=
    match serverNext with
    | none => none
    | some u =>
      if u.startP.isSome then
        let new_start := get_start_param_from_url u
        let previous_start := get_start_param_from_url old
        if new_start - previous_start > (numResults : Int) then
          some (update_param_in_path u (previous_start + numResults))
        else
          some u
      else
        some u
  if auto_paginate ∧ numResults > 0 then
    some (update_param_in_path old (get_start_param_from_url old + numResults))
  else
    corrected

/-- How one run of `_paginate_url` ends: the continuation cursor became
empty (`done`), an error propagated (`fatalError`), or the modelling
fuel ran out before either (`outOfFuel`). -/
inductive PageOutcome where
  | done
  | fatalError
  | outOfFuel
deriving DecidableEq

/-- Observable trace of one `_paginate_url` run: every GET issued
(URL paired with the `limit` variable at that moment), every record
yielded, and how the run ended. -/
structure RunTrace where
  requests : List (UrlSuffix × Nat)
  records : List Nat
  outcome : PageOutcome
deriving DecidableEq

/-- Embeds the `while url_suffix:` loop of `_paginate_url`.  `server`
models `self.get(path=url_suffix, advanced_mode=True)`; a status of 400
or above makes `raise_for_status` throw.  `fuel` bounds the number of
iterations modelled (the source loop has no such bound). -/
def paginate_url_loop (server : UrlSuffix → ServerResponse) (auto_paginate : Bool) :
    Nat → Option UrlSuffix → Nat → RunTrace
  | _, none, _ => ⟨[], [], .done⟩
  | 0, some _, _ => ⟨[], [], .outOfFuel⟩
  | fuel + 1, some url, limit =>
    let resp := server url
    if 400 ≤ resp.status_code then
      match paginate_error_recovery url resp.status_code limit with
      | some (url2, limit2) =>
        let t := paginate_url_loop server auto_paginate fuel (some url2) limit2
        ⟨(url, limit) :: t.requests, t.records, t.outcome⟩
      | none => ⟨[(url, limit)], [], .fatalError⟩
    else if ¬ resp.json_ok then
      ⟨[(url, limit)], [], .fatalError⟩
    else
      let nxt := next_cursor_update url resp.results.length resp.next_link auto_paginate
      let t := paginate_url_loop server auto_paginate fuel nxt limit
      ⟨(url, limit) :: t.requests, resp.results ++ t.records, t.outcome⟩

/-- Embeds `_paginate_url(url_suffix, limit, auto_paginate)`: a falsy
caller limit (`None` or 0) is replaced by
`_DEFAULT_PAGINATION_LIMIT = 1000`, and the limit is appended to the
URL as a query parameter before the loop starts. -/
def paginate_url (server : UrlSuffix → ServerResponse) (url0 : UrlSuffix)
    (limitArg : Option Nat) (auto_paginate : Bool) (fuel : Nat) : RunTrace :=
  let limit := match limitArg with
    | none => 1000
    | some 0 => 1000
    | some l => l
  paginate_url_loop server auto_paginate fuel
    (some { url0 with limitP := some limit }) limit

/-- C1: whenever the server-provided next cursor carries a `start`
parameter whose advance over the previous request exceeds the number of
results returned, the cursor actually used for the next request has its
`start` rewritten to `previous_start + len(results)` — never
`previous_start + advance`.  This holds whether or not cursor synthesis
(`auto_paginate`) is enabled for the endpoint. -/
theorem c1_cursor_correction (old : UrlSuffix) (numResults : Nat)
    (u : UrlSuffix) (auto_paginate : Bool) (new_start : Int)
    (hstart : u.startP = some new_start)
    (hadv : new_start - get_start_param_from_url old > (numResults : Int)) :
    ∃ u2, next_cursor_update old numResults (some u) auto_paginate = some u2 ∧
      u2.startP = some (get_start_param_from_url old + numResults) := by
  unfold next_cursor_update
  by_cases hauto : auto_paginate ∧ numResults > 0
  · rw [if_pos hauto]
    exact ⟨_, rfl, rfl⟩
  · rw [if_neg hauto]
    simp only [hstart, Option.isSome_some, if_pos]
    rw [if_pos (by simpa [get_start_param_from_url, hstart] using hadv)]
    exact ⟨_, rfl, rfl⟩

/-- Witness for C1 at the concrete input of end-to-end scenario 3: the
previous request started at 0 and returned 50 results, but the server
cursor claims start=200; the corrected cursor starts at 50. -/
theorem c1_cursor_correction_witness :
    ∃ u2, next_cursor_update ⟨"u", some 0, some 50, false⟩ 50
        (some ⟨"u", some 200, some 50, false⟩) false = some u2 ∧
      u2.startP = some (get_start_param_from_url ⟨"u", some 0, some 50, false⟩ + 50) :=
  c1_cursor_correction ⟨"u", some 0, some 50, false⟩ 50
    ⟨"u", some 200, some 50, false⟩ false 200 rfl (by decide)

/-- C5 counterexample: a server error with status 502 (a 5xx) at limit
1000 (well above the floor of 50) is NOT retried with a halved limit —
`_paginate_url` only halves on status exactly 500, so the 502 propagates
as fatal.  This refutes the claim for "any 5xx status". -/
theorem c5_counterexample :
    paginate_error_recovery ⟨"q", none, some 1000, false⟩ 502 1000 = none ∧
    500 ≤ 502 ∧ 502 < 600 ∧ 50 < 1000 := by
  refine ⟨rfl, by omega, by omega, by omega⟩

/-- C5 (amended): for a pagination GET whose response has status exactly
500 (not any 5xx) and whose URL does not carry the problematic
expansion: if the limit exceeds the floor of 50 the fetcher halves the
limit, rewrites the limit parameter and retries the same iteration;
if the limit is at or below the floor the error propagates as fatal;
any other error status (outside the problematic-expansion rewrite)
propagates as fatal regardless of the limit. -/
theorem c5_server_error_500_halving (url : UrlSuffix) (limit : Nat)
    (hprob : url.problematicExpansion = false) :
    (50 < limit → paginate_error_recovery url 500 limit =
      some ({ url with limitP := some (limit / 2) }, limit / 2)) ∧
    (limit ≤ 50 → paginate_error_recovery url 500 limit = none) ∧
    (∀ s, 400 ≤ s → s ≠ 500 → paginate_error_recovery url s limit = none) := by
  unfold paginate_error_recovery
  refine ⟨fun h => ?_, fun h => ?_, fun s _ hs => ?_⟩
  · rw [if_neg (by simp [hprob]), if_pos (by omega)]
  · rw [if_neg (by simp [hprob]), if_neg (by omega)]
  · rw [if_neg (by simp [hprob]), if_neg (by omega)]

/-- Witness for C5 (amended) at a concrete input: a 500 at limit 1000
halves to 500. -/
theorem c5_server_error_500_halving_witness :
    paginate_error_recovery ⟨"q", none, some 1000, false⟩ 500 1000 =
      some (⟨"q", none, some 500, false⟩, 500) :=
  (c5_server_error_500_halving ⟨"q", none, some 1000, false⟩ 1000 rfl).1 (by omega)

/-- The limits reachable by repeated halving-above-50 from the default
limit of 1000: 1000, 500, 250, 125, 62, 31. -/
def DefaultReachableLimit (l : Nat) : Prop :=
  l = 1000 ∨ l = 500 ∨ l = 250 ∨ l = 125 ∨ l = 62 ∨ l = 31

instance (l : Nat) : Decidable (DefaultReachableLimit l) := by
  unfold DefaultReachableLimit; infer_instance

/-- Error recovery preserves the set of limits reachable from the
default: it either keeps the limit (expansion substitution) or halves a
limit that exceeds 50. -/
theorem paginate_error_recovery_reachable (url u2 : UrlSuffix) (status limit l2 : Nat)
    (h : paginate_error_recovery url status limit = some (u2, l2))
    (hl : DefaultReachableLimit limit) : DefaultReachableLimit l2 := by
  unfold paginate_error_recovery at h
  split at h
  · obtain ⟨-, rfl⟩ := Prod.mk.injEq .. ▸ (Option.some.injEq .. ▸ h)
    exact hl
  · split at h
    · next hcond =>
      obtain ⟨-, rfl⟩ := Prod.mk.injEq .. ▸ (Option.some.injEq .. ▸ h)
      rcases hl with rfl | rfl | rfl | rfl | rfl | rfl
      · right; left; rfl
      · right; right; left; rfl
      · right; right; right; left; rfl
      · right; right; right; right; left; rfl
      · right; right; right; right; right; rfl
      · omega
    · exact absurd h (by simp)

/-- Every request issued by the pagination loop carries a limit in the
reachable set, provided the starting limit is. -/
theorem paginate_url_loop_limits (server : UrlSuffix → ServerResponse)
    (auto_paginate : Bool) :
    ∀ (fuel : Nat) (url : Option UrlSuffix) (limit : Nat),
      DefaultReachableLimit limit →
      ∀ p ∈ (paginate_url_loop server auto_paginate fuel url limit).requests,
        DefaultReachableLimit p.2 := by
  intro fuel
  induction fuel with
  | zero =>
    intro url limit hl p hp
    cases url <;> simp [paginate_url_loop] at hp
  | succ fuel ih =>
    intro url limit hl p hp
    cases url with
    | none => simp [paginate_url_loop] at hp
    | some u =>
      rw [paginate_url_loop] at hp
      split at hp
      · cases hrec : paginate_error_recovery u (server u).status_code limit with
        | some ul =>
          rw [hrec] at hp
          simp only [List.mem_cons] at hp
          rcases hp with rfl | hp
          · exact hl
          · exact ih (some ul.1) ul.2
              (paginate_error_recovery_reachable u ul.1 (server u).status_code
                limit ul.2 (by rw [hrec]) hl) p hp
        | none =>
          rw [hrec] at hp
          simp only [List.mem_singleton] at hp
          subst hp
          exact hl
      · split at hp
        · simp only [List.mem_singleton] at hp
          subst hp
          exact hl
        · simp only [List.mem_cons] at hp
          rcases hp with rfl | hp
          · exact hl
          · exact ih _ limit hl p hp

/-- C6 counterexample: with a server that always answers 500, a run
started at the default limit 1000 issues requests at limits
1000, 500, 250, 125, 62 and finally 31 — the last being below the
supposed floor of 50 (halving is gated on the limit exceeding 50, but
the halved value itself may fall below 50). -/
theorem c6_counterexample :
    ((paginate_url (fun _ => ⟨500, true, [], none⟩) ⟨"q", none, none, false⟩
        none false 10).requests.map Prod.snd = [1000, 500, 250, 125, 62, 31]) ∧
    31 < 50 := by
  refine ⟨rfl, by omega⟩

/-- C6 (amended): throughout any single retrieval started at the default
limit of 1000, every request's limit stays in the halving chain
1000, 500, 250, 125, 62, 31 — in particular it is always at least 31
and at most 1000.  (The floor of 50 only gates whether another halving
happens; the limit actually used can drop to 31, one halving below the
floor.) -/
theorem c6_limit_lower_bound (server : UrlSuffix → ServerResponse)
    (url0 : UrlSuffix) (auto_paginate : Bool) (fuel : Nat) :
    ∀ p ∈ (paginate_url server url0 none auto_paginate fuel).requests,
      31 ≤ p.2 ∧ p.2 ≤ 1000 := by
  intro p hp
  have := paginate_url_loop_limits server auto_paginate fuel
    (some { url0 with limitP := some 1000 }) 1000 (by left; rfl) p hp
  rcases this with h | h | h | h | h | h <;> omega

/-- Witness for C6 (amended) at a concrete input: the first request of
the always-500 run has limit 1000, within [31, 1000]. -/
theorem c6_limit_lower_bound_witness :
    31 ≤ (Prod.snd (α := UrlSuffix) (⟨"q", none, some 1000, false⟩, 1000)) ∧
      (Prod.snd (α := UrlSuffix) (⟨"q", none, some 1000, false⟩, 1000)) ≤ 1000 :=
  c6_limit_lower_bound (fun _ => ⟨500, true, [], none⟩) ⟨"q", none, none, false⟩
    false 10 (⟨"q", none, some 1000, false⟩, 1000) (by decide)

/-- The server used in the C8 counterexample: the first page returns
zero results but still supplies a next cursor; the second page returns
zero results and no cursor. -/
def serverC8 : UrlSuffix → ServerResponse := fun u =>
  if u.base = "page0" then ⟨200, true, [], some ⟨"page1", some 0, some 1000, false⟩⟩
  else ⟨200, true, [], none⟩

/-- C8 counterexample: with auto-pagination-correction enabled, a page
returning zero results does NOT end the loop when the server supplied a
next cursor — the loop follows the server cursor and issues a second
request (the run makes 2 requests, not 1). -/
theorem c8_counterexample :
    (paginate_url serverC8 ⟨"page0", none, none, false⟩ none true 5).requests.length
      = 2 ∧
    (serverC8 ⟨"page0", none, some 1000, false⟩).results = [] ∧
    (paginate_url serverC8 ⟨"page0", none, none, false⟩ none true 5).outcome
      = .done := by
  refine ⟨rfl, rfl, rfl⟩

/-- C8 (amended): when auto-pagination-correction is enabled and a page
returns zero results, cursor synthesis is skipped — the next cursor is
exactly what it would be with synthesis disabled (the server-provided
cursor, after any under-advance correction), so the loop ends after
that page only if that cursor is empty. -/
theorem c8_zero_results_skips_synthesis (old : UrlSuffix) (nxt : Option UrlSuffix) :
    next_cursor_update old 0 nxt true = next_cursor_update old 0 nxt false := by
  unfold next_cursor_update
  simp

/-- JSON-like values as `_traverse_and_update` sees them: nested
mappings (with ordered fields, as Python dicts), lists, strings,
numbers and null. -/
inductive JsonValue where
  | obj (fields : List (String × JsonValue))
  | arr (elems : List JsonValue)
  | str (s : String)
  | num (n : Int)
  | null

/-- Python `dict.get(k)` on the ordered field list. -/
def lookupField (k : String) : List (String × JsonValue) → Option JsonValue
  | [] => none
  | (k2, v) :: rest => if k2 = k then some v else lookupField k rest

/-- `data.get("_links", {}).get("next")`, with Python truthiness: a
missing `_links`, a missing `next`, or an empty-string `next` is falsy
and yields no URL.  (Next links are strings; a non-mapping `_links` or
non-string `next` is not modelled.) -/
def nextUrlOf (fields : List (String × JsonValue)) : Option String :=
  match lookupField "_links" fields with
  | some (.obj lf) =>
    match lookupField "next" lf with
    | some (.str s) => if s = "" then none else some s
    | _ => none
  | _ => none

/-- `data["results"].extend(items)`: appends to the `results` list in
place.  (If `results` is not a list, Python would raise; the value is
left unchanged here, a case the claims never reach.) -/
def extendResults (fields : List (String × JsonValue)) (items : List JsonValue) :
    List (String × JsonValue) :=
  fields.map (fun kv =>
    if kv.1 = "results" then
      (kv.1, match kv.2 with
        | .arr xs => .arr (xs ++ items)
        | v => v)
    else kv)

/-- The in-place enrichment step of `_traverse_and_update`: if the
mapping has a truthy next link AND a `"results"` key, fetch all
remaining pages (`self._paginate_url(next_url)`, abstracted as `fetch`)
and append them to the results list.  The continuation link itself is
left in place. -/
def enrichFields (fetch : String → List JsonValue)
    (fields : List (String × JsonValue)) : List (String × JsonValue) :=
  match nextUrlOf fields with
  | some u => if (lookupField "results" fields).isSome then
      extendResults fields (fetch u) else fields
  | none => fields

/-- Embeds `_traverse_and_update(data)` from
`cql_paginate_all_expansions`, written functionally: a mapping is first
enriched (results extended before the value recursion, as in the
source, so appended items are traversed too), then every value is
traversed; a list traverses every item.  Recursion is bounded by
`fuel` because the fetched pages may themselves contain continuation
links; at fuel 0 the value is returned unchanged. -/
def traverse_and_update (fetch : String → List JsonValue) :
    Nat → JsonValue → JsonValue
  | 0, j => j
  | fuel + 1, .obj fields =>
    .obj ((enrichFields fetch fields).map
      (fun kv => (kv.1, traverse_and_update fetch fuel kv.2)))
  | fuel + 1, .arr xs => .arr (xs.map (traverse_and_update fetch fuel))
  | _ + 1, j => j

/-- No truthy continuation link occurs anywhere in the value, checked to
nesting depth `fuel`. -/
def noContinuationLinks : Nat → JsonValue → Bool
  | 0, _ => true
  | fuel + 1, .obj fields =>
    (nextUrlOf fields).isNone &&
      fields.all (fun kv => noContinuationLinks fuel kv.2)
  | fuel + 1, .arr xs => xs.all (noContinuationLinks fuel)
  | _ + 1, _ => true

/-- Length of the top-level `results` list, used to tell enriched
records apart. -/
def topResultsLength (j : JsonValue) : Option Nat :=
  match j with
  | .obj fields =>
    match lookupField "results" fields with
    | some (.arr xs) => some xs.length
    | _ => none
  | _ => none

/-- Whether the top-level mapping still carries a truthy continuation
link. -/
def topHasContinuationLink (j : JsonValue) : Bool :=
  match j with
  | .obj fields => (nextUrlOf fields).isSome
  | _ => false

/-- The record used in the C7 counterexample: a truncated `results`
list together with a continuation link, exactly the shape the resolver
is meant to resolve. -/
def c7Record : JsonValue :=
  .obj [("results", .arr []), ("_links", .obj [("next", .str "u")])]

/-- The fetch used in the C7 counterexample: the remaining page holds
one record. -/
def c7Fetch : String → List JsonValue := fun _ => [.num 1]

/-- C7 counterexample: after resolving `c7Record` the continuation link
is still present, and running the resolver again appends the fetched
page a second time (results grow from 1 to 2 elements), so the resolver
is not idempotent and continuation links do remain. -/
theorem c7_counterexample :
    topHasContinuationLink (traverse_and_update c7Fetch 4 c7Record) = true ∧
    topResultsLength (traverse_and_update c7Fetch 4 c7Record) = some 1 ∧
    topResultsLength
      (traverse_and_update c7Fetch 4 (traverse_and_update c7Fetch 4 c7Record))
      = some 2 ∧
    traverse_and_update c7Fetch 4 (traverse_and_update c7Fetch 4 c7Record) ≠
      traverse_and_update c7Fetch 4 c7Record := by
  refine ⟨rfl, rfl, rfl, fun h => ?_⟩
  have h2 := congrArg topResultsLength h
  rw [show topResultsLength (traverse_and_update c7Fetch 4
      (traverse_and_update c7Fetch 4 c7Record)) = some 2 from rfl,
    show topResultsLength (traverse_and_update c7Fetch 4 c7Record) = some 1 from rfl]
    at h2
  exact absurd h2 (by simp)

/-- A list whose entries are all fixed by a pair-valued map is unchanged
by it. -/
theorem map_pairs_eq_self (g : JsonValue → JsonValue)
    (fields : List (String × JsonValue))
    (h : ∀ kv ∈ fields, g kv.2 = kv.2) :
    fields.map (fun kv => (kv.1, g kv.2)) = fields := by
  induction fields with
  | nil => rfl
  | cons kv rest ih =>
    simp only [List.map_cons, List.cons.injEq]
    exact ⟨by rw [h kv (by simp)], ih (fun kv2 hkv2 => h kv2 (by simp [hkv2]))⟩

/-- C7 (amended): the resolver appends all remaining pages to each
nested truncated results list but leaves continuation links in place;
it is the identity on any record containing no truthy continuation link
(to the traversed depth), and re-running it on a record that still
carries a continuation link with a nonempty fetch appends the fetched
pages again (see the counterexample). -/
theorem c7_resolver_identity_on_link_free (fetch : String → List JsonValue) :
    ∀ (fuel : Nat) (j : JsonValue), noContinuationLinks fuel j = true →
      traverse_and_update fetch fuel j = j := by
  intro fuel
  induction fuel with
  | zero => intro j _; rfl
  | succ fuel ih =>
    intro j hj
    cases j with
    | obj fields =>
      simp only [noContinuationLinks, Bool.and_eq_true, Option.isNone_iff_eq_none,
        List.all_eq_true] at hj
      obtain ⟨hnone, hall⟩ := hj
      unfold traverse_and_update enrichFields
      rw [hnone]
      rw [map_pairs_eq_self (traverse_and_update fetch fuel) fields
        (fun kv hkv => ih kv.2 (hall kv hkv))]
    | arr xs =>
      simp only [noContinuationLinks, List.all_eq_true] at hj
      unfold traverse_and_update
      rw [show xs.map (traverse_and_update fetch fuel) = xs from by
        induction xs with
        | nil => rfl
        | cons x rest ihx =>
          simp only [List.map_cons, List.cons.injEq]
          exact ⟨ih x (hj x (by simp)), ihx (fun y hy => hj y (by simp [hy]))⟩]
    | str s => rfl
    | num n => rfl
    | null => rfl

/-- Witness for C7 (amended) at a concrete input: a record with no
continuation links is returned unchanged. -/
theorem c7_resolver_identity_on_link_free_witness :
    traverse_and_update c7Fetch 3 (.obj [("title", .str "t"), ("results", .arr [.num 1])])
      = .obj [("title", .str "t"), ("results", .arr [.num 1])] :=
  c7_resolver_identity_on_link_free c7Fetch 3
    (.obj [("title", .str "t"), ("results", .arr [.num 1])]) rfl

/-- Python truthiness of a JSON-like value, as `if not spaces:` tests
it: empty mappings, empty lists, empty strings, zero and None are
falsy. -/
def pyTruthy (j : JsonValue) : Bool :=
  match j with
  | .obj fields => !fields.isEmpty
  | .arr xs => !xs.isEmpty
  | .str s => !(s = "")
  | .num n => !(n = 0)
  | .null => false

/-- Embeds `_validate_connector_configuration`: the low-retry client's
`get_all_spaces(limit=1)` call either raises (`.error msg`) or returns
a parsed response; the function re-raises call errors and raises
`RuntimeError("No spaces found ...")` exactly when the whole response
is falsy (`if not spaces:`). -/
def validate_connector_configuration (spacesCall : Except String JsonValue) :
    Except String Unit :=
  match spacesCall with
  | .error msg => .error msg
  | .ok spaces => if pyTruthy spaces then .ok () else .error "No spaces found"

/-- What `build_confluence_client` produces: either the
`ConnectorValidationError` raised when validation fails, or the
production `OnyxConfluence` client, constructed only after validation
passes. -/
inductive BuildOutcome where
  | connectorValidationError (msg : String)
  | builtClient
deriving DecidableEq

/-- Embeds `build_confluence_client`: any exception from
`_validate_connector_configuration` is wrapped in a
`ConnectorValidationError`; only on success is the production client
constructed and returned. -/
def build_confluence_client (spacesCall : Except String JsonValue) : BuildOutcome :=
  match validate_connector_configuration spacesCall with
  | .error msg => .connectorValidationError msg
  | .ok () => .builtClient

/-- C9 counterexample: a successful validation call whose response is a
non-empty mapping carrying an EMPTY results list (zero results) passes
validation — `if not spaces:` only tests truthiness of the whole
response mapping — so the production client is built with no
configuration error, refuting the zero-results half of the claim. -/
theorem c9_counterexample :
    build_confluence_client (.ok (.obj [("results", .arr [])])) = .builtClient ∧
    lookupField "results" [("results", JsonValue.arr [])] = some (.arr []) := by
  exact ⟨rfl, rfl⟩

/-- C9 (amended): the validation step runs one low-retry read call
before any production client is constructed; it fails with a
configuration error when that call raises, and when the call's whole
response is falsy (e.g. an empty mapping) — but a non-empty response
whose results list is empty passes validation.  The production client
is built exactly when validation passes. -/
theorem c9_validation_amended :
    (∀ msg, build_confluence_client (.error msg) = .connectorValidationError msg) ∧
    (∀ spaces, pyTruthy spaces = false →
      build_confluence_client (.ok spaces) =
        .connectorValidationError "No spaces found") ∧
    (∀ spaces, pyTruthy spaces = true →
      build_confluence_client (.ok spaces) = .builtClient) := by
  refine ⟨fun msg => rfl, fun spaces hf => ?_, fun spaces ht => ?_⟩
  · unfold build_confluence_client validate_connector_configuration
    simp [hf]
  · unfold build_confluence_client validate_connector_configuration
    simp [ht]

/-- Witness for C9 (amended) at a concrete input: an empty response
mapping (falsy) fails with the configuration error. -/
theorem c9_validation_amended_witness :
    build_confluence_client (.ok (.obj [])) =
      .connectorValidationError "No spaces found" :=
  c9_validation_amended.2.1 (.obj []) rfl
